import Mathlib

/-!
Verification of the decision-logic core of `app.py`: the aura (state)
classifier, the predictive engine, the sustainability engine, and the
voice-command intent router.

Conventions of the shallow embedding:
* Python `dict.get(key, default)` on the user-data record is modelled by
  `Option` fields read with `Option.getD`.
* Python machine-independent ints are `Int`; Python floats appearing in the
  sustainability engine (0.5, 3.0, 2.0, 4.0, 1.5, 0.3, 2.5, 1.0) are modelled
  as exact rationals `ℚ` (all claim-relevant arithmetic is exact).
* Python `needle in s` substring tests are `containsSub`; `str.lower()` is
  `pyLower` (ASCII case folding, which agrees with Python on every string
  literal appearing in the program); `str.strip()` is `pyStrip`;
  `sep.join(l)` is `pyJoin`.
* `datetime.now().hour` and `datetime.now().month` are explicit parameters.
* Python's stable `sorted(..., key=count, reverse=True)` is
  `List.mergeSort` with the comparison `byCountDesc` (any two stable sorts
  under the same total preorder agree elementwise).
* `list(set(xs))` has an iteration order that depends on Python's randomized
  string hashing, so it is modelled relationally: `IsSetListing xs out` says
  `out` is some duplicate-free enumeration of the elements of `xs`.
-/

/-- ASCII lowercase of a string, modelling Python `str.lower()` on the ASCII
strings used by the program. -/
def pyLower (s : String) : String := String.mk (s.data.map Char.toLower)

/-- `startsWithL n h` is true when `n` is an initial segment of `h`. -/
def startsWithL : List Char → List Char → Bool
  | [], _ => true
  | _ :: _, [] => false
  | a :: as, b :: bs => a == b && startsWithL as bs

/-- Substring test on character lists, modelling Python `needle in hay`. -/
def containsSubL (needle : List Char) : List Char → Bool
  | [] => startsWithL needle []
  | c :: rest => startsWithL needle (c :: rest) || containsSubL needle rest

/-- Substring test on strings, modelling Python `needle in hay`. -/
def containsSub (needle hay : String) : Bool := containsSubL needle.data hay.data

/-- Whitespace trim at both ends, modelling Python `str.strip()`. -/
def pyStrip (s : String) : String :=
  String.mk (((s.data.dropWhile Char.isWhitespace).reverse.dropWhile
    Char.isWhitespace).reverse)

/-- `sep.join l`, modelling Python `sep.join(l)`. -/
def pyJoin (sep : String) : List String → String
  | [] => ""
  | [x] => x
  | x :: y :: rest => x ++ sep ++ pyJoin sep (y :: rest)

/-- First-occurrence deduplication, with an accumulator of already-seen
strings. -/
def dedupFirstAux (seen : List String) : List String → List String
  | [] => []
  | x :: xs =>
    if x ∈ seen then dedupFirstAux seen xs else x :: dedupFirstAux (x :: seen) xs

/-- First-occurrence-preserving deduplication of a list of strings. -/
def dedupFirst (l : List String) : List String := dedupFirstAux [] l

/-- The `fitness_data` mapping; absent keys default to `0` at the read site,
as in `fitness_data.get('steps', 0)`. -/
structure FitnessData where
  steps : Option Int
  calories : Option Int
  water : Option Int
deriving DecidableEq

/-- One entry of `purchase_history`; `item.get('category', 'General')` reads
the optional category. -/
structure PurchaseItem where
  category : Option String
deriving DecidableEq

/-- The `user_data` dictionary consumed by the three engines.  Every field is
optional; each engine applies its own default at the read site via
`Option.getD`, mirroring Python `user_data.get(key, default)`. -/
structure UserData where
  stress_level : Option Int
  energy_level : Option Int
  weather : Option String
  location : Option String
  calendar_events : Option (List String)
  family_members : Option (List String)
  health_goals : Option (List String)
  fitness_data : Option FitnessData
  purchase_history : Option (List PurchaseItem)
  age : Option Int
  cart : Option (List String)

/-- `AuraEngine.calculate_aura`.  The wall-clock hour (`datetime.now().hour`)
is passed explicitly.  Returns the aura label and its hex color. -/
def calculate_aura (user_data : UserData) (hour : Int) : String × String :=
  let stress := user_data.stress_level.getD 5
  let energy := user_data.energy_level.getD 7
  let weather := user_data.weather.getD "Sunny"
  if stress > 7 then ("Stressed", "#ef4444")
  else if stress < 3 then ("Calm", "#10b981")
  else if energy > 8 then ("Energetic", "#f59e0b")
  else if energy < 3 then ("Low Energy", "#6b7280")
  else if weather = "Rainy" ∧ stress > 5 then ("Cozy", "#8b5cf6")
  else if weather = "Sunny" ∧ energy > 6 then ("Vibrant", "#f59e0b")
  else if hour < 6 ∨ hour > 22 then ("Restful", "#6366f1")
  else if 6 ≤ hour ∧ hour < 12 then ("Energetic", "#f59e0b")
  else if 12 ≤ hour ∧ hour < 18 then ("Productive", "#0071ce")
  else ("Relaxed", "#10b981")

/-- A recommendation bundle of `AuraEngine.get_aura_recommendations`. -/
structure RecommendationBundle where
  categories : List String
  products : List String
  ui_theme : String
  colors : List String
deriving DecidableEq

/-- The "Stressed" bundle. -/
def stressedBundle : RecommendationBundle :=
  ⟨["Wellness", "Relaxation", "Comfort"],
   ["Aromatherapy oils", "Herbal tea", "Stress ball", "Meditation app"],
   "calm", ["#ef4444", "#f97316"]⟩

/-- The "Energetic" bundle. -/
def energeticBundle : RecommendationBundle :=
  ⟨["Fitness", "Sports", "Adventure"],
   ["Protein powder", "Workout gear", "Energy drinks", "Sports equipment"],
   "vibrant", ["#f59e0b", "#eab308"]⟩

/-- The "Calm" bundle, also the fallback for unknown labels. -/
def calmBundle : RecommendationBundle :=
  ⟨["Books", "Art", "Music"],
   ["Books", "Art supplies", "Classical music", "Puzzles"],
   "serene", ["#10b981", "#059669"]⟩

/-- The "Eco" bundle, present in the table but unreachable from
`calculate_aura`. -/
def ecoBundle : RecommendationBundle :=
  ⟨["Sustainable", "Organic", "Green"],
   ["Organic foods", "Eco-friendly products", "Reusable items", "Solar products"],
   "green", ["#22c55e", "#16a34a"]⟩

/-- The "Cozy" bundle. -/
def cozyBundle : RecommendationBundle :=
  ⟨["Comfort", "Indoor", "Warmth"],
   ["Blankets", "Hot beverages", "Candles", "Indoor plants"],
   "cozy", ["#8b5cf6", "#7c3aed"]⟩

/-- The "Vibrant" bundle. -/
def vibrantBundle : RecommendationBundle :=
  ⟨["Outdoor", "Active", "Social"],
   ["Outdoor gear", "Party supplies", "Bright clothing", "Social games"],
   "vibrant", ["#f59e0b", "#eab308"]⟩

/-- The "Low Energy" bundle. -/
def lowEnergyBundle : RecommendationBundle :=
  ⟨["Energy Boost", "Comfort", "Rest"],
   ["Energy bars", "Coffee", "Comfortable seating", "Sleep aids"],
   "restful", ["#6b7280", "#4b5563"]⟩

/-- The "Restful" bundle. -/
def restfulBundle : RecommendationBundle :=
  ⟨["Sleep", "Relaxation", "Night"],
   ["Sleep masks", "Pillows", "Night tea", "Meditation apps"],
   "night", ["#6366f1", "#4f46e5"]⟩

/-- The "Productive" bundle. -/
def productiveBundle : RecommendationBundle :=
  ⟨["Work", "Efficiency", "Focus"],
   ["Office supplies", "Productivity tools", "Healthy snacks", "Organizers"],
   "professional", ["#0071ce", "#0284c7"]⟩

/-- The "Relaxed" bundle. -/
def relaxedBundle : RecommendationBundle :=
  ⟨["Leisure", "Entertainment", "Comfort"],
   ["Entertainment", "Comfort food", "Leisure activities", "Relaxation tools"],
   "leisure", ["#10b981", "#059669"]⟩

/-- `AuraEngine.get_aura_recommendations`: exact-key lookup in the bundle
dictionary with the Calm bundle as the `.get` default. -/
def get_aura_recommendations (aura_state : String) : RecommendationBundle :=
  if aura_state = "Stressed" then stressedBundle
  else if aura_state = "Energetic" then energeticBundle
  else if aura_state = "Calm" then calmBundle
  else if aura_state = "Eco" then ecoBundle
  else if aura_state = "Cozy" then cozyBundle
  else if aura_state = "Vibrant" then vibrantBundle
  else if aura_state = "Low Energy" then lowEnergyBundle
  else if aura_state = "Restful" then restfulBundle
  else if aura_state = "Productive" then productiveBundle
  else if aura_state = "Relaxed" then relaxedBundle
  else calmBundle

/-- The static month-keyed table `seasonal_needs`; exact-key `.get` with
default `[]`. -/
def seasonal_needs (month : Int) : List String :=
  if month = 12 then ["Winter clothes", "Holiday gifts", "Comfort food", "Indoor activities", "Heating supplies"]
  else if month = 1 then ["Fitness equipment", "Healthy food", "Organization tools", "New year supplies", "Winter gear"]
  else if month = 2 then ["Valentine\x27s gifts", "Winter clearance", "Indoor activities", "Heart health products", "Love-themed items"]
  else if month = 3 then ["Spring cleaning", "Garden supplies", "Allergy relief", "Fresh produce", "Outdoor preparation"]
  else if month = 4 then ["Spring fashion", "Outdoor gear", "Fresh produce", "Easter items", "Allergy medication"]
  else if month = 5 then ["Summer prep", "Sunscreen", "BBQ supplies", "Mother\x27s Day gifts", "Graduation gifts"]
  else if month = 6 then ["Summer clothes", "Travel gear", "Ice cream", "Father\x27s Day gifts", "Outdoor furniture"]
  else if month = 7 then ["Vacation items", "Swimwear", "Cooling products", "Summer sports", "Outdoor entertainment"]
  else if month = 8 then ["Back to school", "Summer clearance", "Prep for fall", "School supplies", "Fall fashion preview"]
  else if month = 9 then ["Fall fashion", "School supplies", "Warm beverages", "Halloween prep", "Comfort foods"]
  else if month = 10 then ["Halloween items", "Autumn decor", "Comfort foods", "Warm clothing", "Seasonal produce"]
  else if month = 11 then ["Thanksgiving prep", "Winter prep", "Holiday planning", "Gratitude gifts", "Warm clothing"]
  else []

/-- `PredictiveEngine._seasonal_predictions`; the current month
(`datetime.now().month`) is passed explicitly. -/
def _seasonal_predictions (month : Int) : List String := seasonal_needs month

/-- One step of the category tally: the dict update
`categories[category] = categories.get(category, 0) + 1`, preserving
insertion order as Python dicts do. -/
def bump : List (String × Nat) → String → List (String × Nat)
  | [], c => [(c, 1)]
  | (k, n) :: rest, c =>
    if k = c then (k, n + 1) :: rest else (k, n) :: bump rest c

/-- The category-frequency tally of `_behavioral_predictions`, as an
insertion-ordered association list. -/
def tally (purchase_history : List PurchaseItem) : List (String × Nat) :=
  purchase_history.foldl (fun acc item => bump acc (item.category.getD "General")) []

/-- Comparison used to model Python
`sorted(categories.items(), key=lambda x: x[1], reverse=True)`:
a stable sort that orders by descending count. -/
def byCountDesc (a b : String × Nat) : Bool := decide (b.2 ≤ a.2)

/-- `PredictiveEngine._behavioral_predictions`. -/
def _behavioral_predictions (user_data : UserData) : List String :=
  let purchase_history := user_data.purchase_history.getD []
  if purchase_history = [] then ["Basic necessities", "Popular items", "Trending products"]
  else
    let top_categories := ((tally purchase_history).mergeSort byCountDesc).take 3
    top_categories.map (fun cat => "More " ++ cat.1 ++ " items")

/-- The per-event keyword scan of `_social_predictions`: the first matching
keyword in source order contributes one fixed string. -/
def socialKeywordHit (event : String) : Option String :=
  let e := pyLower event
  if containsSub "birthday" e then some "Gift ideas for birthday celebration"
  else if containsSub "party" e then some "Party supplies and decorations"
  else if containsSub "meeting" e then some "Professional attire and accessories"
  else if containsSub "bbq" e then some "BBQ essentials and outdoor dining"
  else if containsSub "gym" e then some "Fitness gear and protein supplements"
  else none

/-- `PredictiveEngine._social_predictions`; the final
`social_predictions or [...]` replaces an empty result by the fallback. -/
def _social_predictions (user_data : UserData) : List String :=
  let calendar_events := user_data.calendar_events.getD []
  let social_predictions := calendar_events.filterMap socialKeywordHit
  if social_predictions = [] then ["Social gathering items"] else social_predictions

/-- `PredictiveEngine._lifecycle_predictions` (the computed `family_size`
is unused by the source). -/
def _lifecycle_predictions (user_data : UserData) : List String :=
  let age := user_data.age.getD 30
  if age < 25 then ["Tech gadgets", "Fashion items", "Entertainment", "Education supplies", "Social activities"]
  else if age < 35 then ["Career items", "Home improvement", "Travel", "Investment tools", "Skill development"]
  else if age < 50 then ["Family items", "Health products", "Home essentials", "Children\x27s needs", "Long-term planning"]
  else ["Comfort items", "Health supplements", "Hobby supplies", "Relaxation tools", "Wellness products"]

/-- `PredictiveEngine._contextual_predictions`; the time of day
(`datetime.now().hour`) is passed explicitly. -/
def _contextual_predictions (user_data : UserData) (hour : Int) : List String :=
  let weather := user_data.weather.getD "Sunny"
  (if weather = "Rainy" then ["Umbrellas", "Raincoats", "Indoor activities", "Comfort food"]
   else if weather = "Sunny" then ["Sunscreen", "Outdoor gear", "Cold beverages", "Summer clothing"]
   else if weather = "Snowy" then ["Winter gear", "Heating supplies", "Hot beverages", "Snow activities"]
   else []) ++
  (if hour < 12 then ["Breakfast items", "Coffee", "Morning supplements"]
   else if hour < 17 then ["Lunch options", "Afternoon snacks", "Energy drinks"]
   else ["Dinner ingredients", "Evening relaxation", "Night-time products"])

/-- `PredictiveEngine._health_predictions`. -/
def _health_predictions (user_data : UserData) : List String :=
  let health_goals := user_data.health_goals.getD []
  let fitness_data := user_data.fitness_data.getD ⟨none, none, none⟩
  (if "Weight Management" ∈ health_goals then ["Healthy snacks", "Portion control tools", "Fitness equipment"] else []) ++
  (if "Heart Health" ∈ health_goals then ["Heart-healthy foods", "Omega-3 supplements", "Exercise gear"] else []) ++
  (if fitness_data.steps.getD 0 < 5000 then ["Activity trackers and motivation tools"] else []) ++
  (if fitness_data.water.getD 0 < 8 then ["Water bottles and hydration reminders"] else [])

/-- The concatenation `all_predictions` built by
`PredictiveEngine.generate_predictions`, iterating the six sub-models in the
dict insertion order seasonal, behavioral, social, lifecycle, contextual,
health. -/
def allPredictions (user_data : UserData) (month hour : Int) : List String :=
  _seasonal_predictions month ++ _behavioral_predictions user_data ++
  _social_predictions user_data ++ _lifecycle_predictions user_data ++
  _contextual_predictions user_data hour ++ _health_predictions user_data

/-- `out` is a possible value of Python `list(set(l))`: a duplicate-free list
with exactly the elements of `l`.  The order is left unconstrained because
CPython enumerates a string set in an order determined by randomized hashing
(`PYTHONHASHSEED`). -/
def IsSetListing (l out : List String) : Prop :=
  out.Nodup ∧ ∀ x, x ∈ out ↔ x ∈ l

/-- Relational model of `PredictiveEngine.generate_predictions`:
`list(set(all_predictions))[:15]` for some set-enumeration order. -/
def GeneratesPredictions (user_data : UserData) (month hour : Int)
    (out : List String) : Prop :=
  ∃ s, IsSetListing (allPredictions user_data month hour) s ∧ out = s.take 15

/-- The per-item cost of `SustainabilityEngine.calculate_carbon_footprint`:
the body of its `for` loop, a first-match keyword scan over the lowercased
item with default `1.0`. -/
def itemFootprint (item : String) : ℚ :=
  if containsSub "organic" (pyLower item) then 1/2
  else if containsSub "electronics" (pyLower item) then 3
  else if containsSub "clothing" (pyLower item) then 2
  else if containsSub "meat" (pyLower item) then 4
  else if containsSub "dairy" (pyLower item) then 3/2
  else if containsSub "local" (pyLower item) then 3/10
  else if containsSub "plastic" (pyLower item) then 5/2
  else 1

/-- `SustainabilityEngine.calculate_carbon_footprint`: the running
accumulation `total_footprint += ...` over the cart. -/
def calculate_carbon_footprint (cart_items : List String) : ℚ :=
  cart_items.foldl (fun total_footprint item => total_footprint + itemFootprint item) 0

/-- The fixed 10-entry substitution table of
`SustainabilityEngine.get_eco_alternatives`, in source order. -/
def alternativesTable : List (String × String) :=
  [("plastic bottle", "Reusable stainless steel bottle"),
   ("paper towels", "Reusable cloth towels"),
   ("regular detergent", "Eco-friendly detergent"),
   ("disposable bags", "Reusable shopping bags"),
   ("incandescent bulbs", "LED bulbs"),
   ("plastic containers", "Glass storage containers"),
   ("fast fashion", "Sustainable clothing brands"),
   ("conventional produce", "Organic produce"),
   ("single-use items", "Reusable alternatives"),
   ("synthetic materials", "Natural materials")]

/-- `SustainabilityEngine.get_eco_alternatives`: exact-key dictionary lookup
on the lowercased name, with the synthesized `"Eco-friendly {name}"` as the
`.get` default. -/
def get_eco_alternatives (product_name : String) : String :=
  match alternativesTable.find? (fun kv => kv.1 == pyLower product_name) with
  | some kv => kv.2
  | none => "Eco-friendly " ++ product_name

/-- The record returned by
`SustainabilityEngine.generate_sustainability_report`. -/
structure SustainabilityReport where
  carbon_footprint : ℚ
  eco_grade : String
  eco_score : ℚ
  recommendations : List String

/-- The fixed recommendation list of the sustainability report. -/
def sustainabilityTips : List String :=
  ["Choose organic products when possible",
   "Use reusable bags and containers",
   "Buy local produce to reduce transport emissions",
   "Select energy-efficient appliances",
   "Reduce single-use plastic items",
   "Consider second-hand or refurbished items",
   "Support sustainable brands and certifications"]

/-- `SustainabilityEngine.generate_sustainability_report`. -/
def generate_sustainability_report (user_data : UserData) : SustainabilityReport :=
  let cart := user_data.cart.getD []
  let carbon_footprint := calculate_carbon_footprint cart
  let eco_grade :=
    if carbon_footprint < 5 then "A+"
    else if carbon_footprint < 10 then "A"
    else if carbon_footprint < 20 then "B+"
    else if carbon_footprint < 30 then "B"
    else "C"
  ⟨carbon_footprint, eco_grade, max 0 (100 - carbon_footprint * 2), sustainabilityTips⟩

/-- The first, fully implemented definition of `process_voice_command`
(the intent router, lines 939-993 of `app.py`): a first-match keyword
dispatcher over the lowercased, stripped command.  The session values it
interpolates (`st.session_state.community_trends`,
`st.session_state.weather`) are passed explicitly. -/
def process_voice_command_router (trends : List String) (weather : String)
    (command : String) : String :=
  let c := pyStrip (pyLower command)
  if containsSub "add" c ∧ containsSub "cart" c then
    if containsSub "organic" c then
      "I\x27ve added organic products to your cart based on your preferences."
    else if containsSub "eco" c ∨ containsSub "sustainable" c then
      "I\x27ve added eco-friendly items to your cart. These choices help reduce your carbon footprint."
    else
      "I\x27ve added the requested items to your cart. Is there anything else you\x27d like to add?"
  else if containsSub "find" c ∨ containsSub "search" c then
    if containsSub "eco" c ∨ containsSub "sustainable" c then
      "Here are some eco-friendly alternatives that match your preferences and reduce environmental impact."
    else if containsSub "gift" c then
      "Based on your recipient\x27s interests and your budget, here are some thoughtful gift recommendations."
    else
      "I found several products matching your search. Here are the top recommendations based on your aura and preferences."
  else if containsSub "trending" c then
    "In your area, the top trending items are: " ++ pyJoin ", " (trends.take 3) ++
      ". These are popular among users with similar preferences."
  else if containsSub "delivery" c ∨ containsSub "schedule" c then
    "I can schedule delivery for tomorrow between 9 AM - 6 PM. Would you like express delivery or standard shipping?"
  else if containsSub "price" c ∨ containsSub "under" c ∨ containsSub "$" c then
    "I found several great products within your budget. Here are the top recommendations sorted by value and rating."
  else if containsSub "gift" c ∨ containsSub "friend" c then
    "Based on your friend\x27s interests and recent activities, I recommend these thoughtful gift options that align with their hobbies."
  else if containsSub "weather" c then
    "Given today\x27s " ++ pyLower weather ++ " weather, I recommend these items to keep you comfortable and prepared."
  else if containsSub "health" c ∨ containsSub "wellness" c then
    "Based on your health goals and fitness data, here are some products that can support your wellness journey."
  else if containsSub "carbon" c ∨ containsSub "environment" c then
    "I can show you the environmental impact of your choices and suggest alternatives to reduce your carbon footprint."
  else
    "I understand you\x27re looking for assistance. Let me help you find exactly what you need based on your current aura, preferences, and context."

/-- The second, placeholder definition of `process_voice_command`
(lines 1800-1802 of `app.py`).  Being the later module-level `def` of the
same name, it is the binding in effect at runtime and shadows the router. -/
def process_voice_command (command : String) : String :=
  "You said: " ++ command

/-- Spec-side definition, following the claim's words: the time-of-day label
with Restful on [0,6) ∪ [22,24), Energetic on [6,12), Productive on [12,18),
Relaxed on [18,22). -/
def specTimeLabel (hour : Int) : String :=
  if (0 ≤ hour ∧ hour < 6) ∨ (22 ≤ hour ∧ hour < 24) then "Restful"
  else if 6 ≤ hour ∧ hour < 12 then "Energetic"
  else if 12 ≤ hour ∧ hour < 18 then "Productive"
  else "Relaxed"

/-- Spec-side definition of the amended time-of-day label, matching the
source's strict `hour > 22` test: Restful on [0,6) and at hour 23,
Energetic on [6,12), Productive on [12,18), Relaxed on [18,23). -/
def amendedTimeLabel (hour : Int) : String :=
  if hour < 6 ∨ 22 < hour then "Restful"
  else if hour < 12 then "Energetic"
  else if hour < 18 then "Productive"
  else "Relaxed"

/-- Spec-side keyword/cost table of the claim, in its stated priority
order (0.5, 3.0, 2.0, 4.0, 1.5, 0.3, 2.5 as exact rationals). -/
def specKeywordCosts : List (String × ℚ) :=
  [("organic", 1/2), ("electronics", 3), ("clothing", 2), ("meat", 4),
   ("dairy", 3/2), ("local", 3/10), ("plastic", 5/2)]

/-- Spec-side per-item cost, following the claim's words: the first keyword
of `specKeywordCosts` contained in the lowercased item determines the cost,
default 1. -/
def specItemCost (item : String) : ℚ :=
  match specKeywordCosts.find? (fun kv => containsSub kv.1 (pyLower item)) with
  | some kv => kv.2
  | none => 1

/-- A context on which none of classification rules 1-6 fires:
stress 5, energy 7, weather Cloudy. -/
def ctxFallthrough : UserData :=
  ⟨some 5, some 7, some "Cloudy", none, none, none, none, none, none, none, none⟩

/-- C1.  The command "add organic to cart" and the intent router.  The router
definition of `process_voice_command` (line 939) does return the
organic-specific canned response, but the placeholder redefinition at line
1800 shadows it at module level, so the binding in effect returns the echo
string instead. -/
theorem voice_command_add_organic_to_cart :
    process_voice_command "add organic to cart" = "You said: add organic to cart" ∧
    ∀ (trends : List String) (weather : String),
      process_voice_command_router trends weather "add organic to cart" =
        "I\x27ve added organic products to your cart based on your preferences." := by
  refine ⟨rfl, fun trends weather => ?_⟩
  rfl

/-- C4.  Whenever the stress level read from the context (default 5) exceeds
7, `calculate_aura` returns the label Stressed, regardless of energy,
weather and hour. -/
theorem aura_stress_override (user_data : UserData) (hour : Int)
    (h : user_data.stress_level.getD 5 > 7) :
    (calculate_aura user_data hour).1 = "Stressed" := by
  unfold calculate_aura
  simp only [if_pos h]

/-- Witness for C4: a context with stress 9 at hour 10 is classified
Stressed. -/
theorem aura_stress_override_witness :
    (9 : Int) > 7 ∧
    (calculate_aura ⟨some 9, some 9, some "Sunny", none, none, none, none, none,
      none, none, none⟩ 10).1 = "Stressed" :=
  ⟨by decide,
   aura_stress_override ⟨some 9, some 9, some "Sunny", none, none, none, none,
     none, none, none, none⟩ 10 (by decide)⟩

/-- C10.  `calculate_aura` only ever returns one of nine labels; "Eco" is
never among them even though its bundle exists, and that bundle is reachable
by calling `get_aura_recommendations "Eco"` directly. -/
theorem aura_label_taxonomy (user_data : UserData) (hour : Int) :
    (calculate_aura user_data hour).1 ∈
      (["Stressed", "Calm", "Energetic", "Low Energy", "Cozy", "Vibrant",
        "Restful", "Productive", "Relaxed"] : List String) ∧
    (calculate_aura user_data hour).1 ≠ "Eco" ∧
    get_aura_recommendations "Eco" = ecoBundle := by
  unfold calculate_aura
  refine ⟨?_, ?_, by decide⟩ <;> dsimp only <;> split_ifs <;> simp

/-- C2 counterexample.  At hour 22 on a context where rules 1-6 do not fire
(stress 5, energy 7, weather Cloudy), the code returns Relaxed, not the
Restful demanded by the claim's time table for [22,24). -/
theorem aura_time_branch_hour22_refuted :
    (3 ≤ (5 : Int) ∧ (5 : Int) ≤ 7) ∧ (3 ≤ (7 : Int) ∧ (7 : Int) ≤ 8) ∧
    ¬(ctxFallthrough.weather.getD "Sunny" = "Rainy" ∧ ctxFallthrough.stress_level.getD 5 > 5) ∧
    ¬(ctxFallthrough.weather.getD "Sunny" = "Sunny" ∧ ctxFallthrough.energy_level.getD 7 > 6) ∧
    specTimeLabel 22 = "Restful" ∧
    (calculate_aura ctxFallthrough 22).1 = "Relaxed" ∧
    (calculate_aura ctxFallthrough 22).1 ≠ specTimeLabel 22 := by
  decide

/-- C2 as amended.  On every context where rules 1-6 do not fire, the label
is a function of the hour alone, but the late-night band is `hour > 22`:
Restful on [0,6) and at 23, Energetic on [6,12), Productive on [12,18),
Relaxed on [18,23). -/
theorem aura_time_branch (user_data : UserData) (hour : Int)
    (hs1 : 3 ≤ user_data.stress_level.getD 5)
    (hs2 : user_data.stress_level.getD 5 ≤ 7)
    (he1 : 3 ≤ user_data.energy_level.getD 7)
    (he2 : user_data.energy_level.getD 7 ≤ 8)
    (hw1 : ¬(user_data.weather.getD "Sunny" = "Rainy" ∧ user_data.stress_level.getD 5 > 5))
    (hw2 : ¬(user_data.weather.getD "Sunny" = "Sunny" ∧ user_data.energy_level.getD 7 > 6)) :
    (calculate_aura user_data hour).1 = amendedTimeLabel hour := by
  have h1 : ¬(user_data.stress_level.getD 5 > 7) := by omega
  have h2 : ¬(user_data.stress_level.getD 5 < 3) := by omega
  have h3 : ¬(user_data.energy_level.getD 7 > 8) := by omega
  have h4 : ¬(user_data.energy_level.getD 7 < 3) := by omega
  unfold calculate_aura amendedTimeLabel
  dsimp only
  rw [if_neg h1, if_neg h2, if_neg h3, if_neg h4, if_neg hw1, if_neg hw2]
  split_ifs <;> first | rfl | omega

/-- Witness for C2: the spec's own worked example, stress 5, energy 7,
weather Cloudy at hour 14, is classified Productive. -/
theorem aura_time_branch_witness :
    (calculate_aura ctxFallthrough 14).1 = amendedTimeLabel 14 ∧
    amendedTimeLabel 14 = "Productive" :=
  ⟨aura_time_branch ctxFallthrough 14 (by decide) (by decide) (by decide)
    (by decide) (by decide) (by decide), by decide⟩

/-- The source's per-item keyword chain agrees with the claim's ordered
keyword-table scan. -/
theorem itemFootprint_eq_spec (item : String) : itemFootprint item = specItemCost item := by
  unfold itemFootprint specItemCost specKeywordCosts
  cases h1 : containsSub "organic" (pyLower item) <;>
    cases h2 : containsSub "electronics" (pyLower item) <;>
      cases h3 : containsSub "clothing" (pyLower item) <;>
        cases h4 : containsSub "meat" (pyLower item) <;>
          cases h5 : containsSub "dairy" (pyLower item) <;>
            cases h6 : containsSub "local" (pyLower item) <;>
              cases h7 : containsSub "plastic" (pyLower item) <;>
                simp [List.find?, h1, h2, h3, h4, h5, h6, h7]

/-- Accumulator form of the footprint loop. -/
theorem footprint_foldl_eq (items : List String) :
    ∀ a : ℚ, items.foldl (fun total item => total + itemFootprint item) a =
      a + (items.map specItemCost).sum := by
  induction items with
  | nil => intro a; simp
  | cons x xs ih =>
    intro a
    rw [List.foldl_cons, ih, itemFootprint_eq_spec]
    simp only [List.map_cons, List.sum_cons]
    ring

/-- C6.  The carbon footprint is the sum over items of the cost of the first
matching keyword in the order organic (0.5), electronics (3.0),
clothing (2.0), meat (4.0), dairy (1.5), local (0.3), plastic (2.5), with
default 1.0; "organic milk" costs 0.5 and "sneakers" costs 1.0. -/
theorem carbon_footprint_keyword_priority :
    (∀ items : List String,
      calculate_carbon_footprint items = ((items.map specItemCost).sum : ℚ)) ∧
    calculate_carbon_footprint ["organic milk"] = 1/2 ∧
    calculate_carbon_footprint ["sneakers"] = 1 := by
  have key : ∀ items : List String,
      calculate_carbon_footprint items = ((items.map specItemCost).sum : ℚ) := by
    intro items
    unfold calculate_carbon_footprint
    rw [footprint_foldl_eq]
    ring
  refine ⟨key, ?_, ?_⟩ <;>
    · rw [key]
      norm_num [specItemCost, specKeywordCosts, List.find?,
        show containsSub "organic" (pyLower "organic milk") = true from by decide,
        show containsSub "organic" (pyLower "sneakers") = false from by decide,
        show containsSub "electronics" (pyLower "sneakers") = false from by decide,
        show containsSub "clothing" (pyLower "sneakers") = false from by decide,
        show containsSub "meat" (pyLower "sneakers") = false from by decide,
        show containsSub "dairy" (pyLower "sneakers") = false from by decide,
        show containsSub "local" (pyLower "sneakers") = false from by decide,
        show containsSub "plastic" (pyLower "sneakers") = false from by decide]

/-- C7.  The sustainability report grades the footprint by ascending
thresholds (<5 A+, <10 A, <20 B+, <30 B, else C), and its eco-score is
`max 0 (100 - footprint*2)`: never negative, and zero exactly when the
footprint is at least 50. -/
theorem sustainability_report_grading (user_data : UserData) :
    (generate_sustainability_report user_data).carbon_footprint =
      calculate_carbon_footprint (user_data.cart.getD []) ∧
    (generate_sustainability_report user_data).eco_grade =
      (if calculate_carbon_footprint (user_data.cart.getD []) < 5 then "A+"
       else if calculate_carbon_footprint (user_data.cart.getD []) < 10 then "A"
       else if calculate_carbon_footprint (user_data.cart.getD []) < 20 then "B+"
       else if calculate_carbon_footprint (user_data.cart.getD []) < 30 then "B"
       else "C") ∧
    (generate_sustainability_report user_data).eco_score =
      max 0 (100 - calculate_carbon_footprint (user_data.cart.getD []) * 2) ∧
    0 ≤ (generate_sustainability_report user_data).eco_score ∧
    ((generate_sustainability_report user_data).eco_score = 0 ↔
      50 ≤ calculate_carbon_footprint (user_data.cart.getD [])) := by
  unfold generate_sustainability_report
  refine ⟨rfl, rfl, rfl, le_max_left _ _, ?_⟩
  dsimp only
  rw [max_eq_left_iff]
  constructor <;> intro h <;> linarith

/-- C8.  `get_eco_alternatives` is total: an exact case-insensitive hit on
any of the 10 table keys returns that key's substitution (in particular any
casing of "plastic bottle" yields "Reusable stainless steel bottle"), and
every other name yields "Eco-friendly " followed by the original name. -/
theorem eco_alternatives_total :
    (∀ name : String, pyLower name = "plastic bottle" →
      get_eco_alternatives name = "Reusable stainless steel bottle") ∧
    (∀ (name k v : String), (k, v) ∈ alternativesTable → pyLower name = k →
      get_eco_alternatives name = v) ∧
    (∀ name : String, (∀ kv ∈ alternativesTable, pyLower name ≠ kv.1) →
      get_eco_alternatives name = "Eco-friendly " ++ name) ∧
    get_eco_alternatives "xyz" = "Eco-friendly xyz" := by
  have hit : ∀ (name k v : String), (k, v) ∈ alternativesTable → pyLower name = k →
      get_eco_alternatives name = v := by
    intro name k v hmem heq
    unfold get_eco_alternatives
    rw [heq]
    fin_cases hmem <;> rfl
  have miss : ∀ name : String, (∀ kv ∈ alternativesTable, pyLower name ≠ kv.1) →
      get_eco_alternatives name = "Eco-friendly " ++ name := by
    intro name h
    unfold get_eco_alternatives
    rw [List.find?_eq_none.mpr]
    intro kv hkv
    simp only [beq_iff_eq]
    exact fun hk => h kv hkv hk.symm
  refine ⟨fun name h => hit name _ _ (by decide) h, hit, miss, ?_⟩
  exact miss "xyz" (by decide)

/-- Witness for C8: the two concrete lookups of the spec, with a
mixed-case hit. -/
theorem eco_alternatives_total_witness :
    get_eco_alternatives "Plastic Bottle" = "Reusable stainless steel bottle" ∧
    get_eco_alternatives "xyz" = "Eco-friendly xyz" :=
  ⟨eco_alternatives_total.1 "Plastic Bottle" (by decide),
   eco_alternatives_total.2.2.2⟩

/-- Membership in the first-occurrence dedup with a seen-accumulator. -/
theorem mem_dedupFirstAux : ∀ (l seen : List String) (x : String),
    x ∈ dedupFirstAux seen l ↔ x ∈ l ∧ x ∉ seen := by
  intro l
  induction l with
  | nil => intro seen x; simp [dedupFirstAux]
  | cons y ys ih =>
    intro seen x
    unfold dedupFirstAux
    by_cases h : y ∈ seen
    · rw [if_pos h, ih]
      constructor
      · rintro ⟨hx, hs⟩
        exact ⟨List.mem_cons_of_mem _ hx, hs⟩
      · rintro ⟨hx, hs⟩
        rcases List.mem_cons.mp hx with rfl | hx
        · exact absurd h hs
        · exact ⟨hx, hs⟩
    · rw [if_neg h]
      simp only [List.mem_cons, ih]
      constructor
      · rintro (rfl | ⟨hx, hs⟩)
        · exact ⟨Or.inl rfl, h⟩
        · exact ⟨Or.inr hx, fun hxs => hs (Or.inr hxs)⟩
      · rintro ⟨rfl | hx, hs⟩
        · exact Or.inl rfl
        · by_cases hxy : x = y
          · exact Or.inl hxy
          · exact Or.inr ⟨hx, fun hc => hc.elim hxy hs⟩

/-- The first-occurrence dedup keeps exactly the elements of the input. -/
theorem mem_dedupFirst (l : List String) (x : String) :
    x ∈ dedupFirst l ↔ x ∈ l := by
  rw [dedupFirst, mem_dedupFirstAux]
  simp

/-- The first-occurrence dedup is duplicate-free. -/
theorem nodup_dedupFirstAux : ∀ (l seen : List String),
    (dedupFirstAux seen l).Nodup := by
  intro l
  induction l with
  | nil => intro seen; simp [dedupFirstAux]
  | cons y ys ih =>
    intro seen
    unfold dedupFirstAux
    by_cases h : y ∈ seen
    · rw [if_pos h]; exact ih seen
    · rw [if_neg h]
      refine List.nodup_cons.mpr ⟨?_, ih (y :: seen)⟩
      rw [mem_dedupFirstAux]
      rintro ⟨-, hs⟩
      exact hs (List.mem_cons_self y seen)

/-- The first-occurrence dedup is duplicate-free. -/
theorem nodup_dedupFirst (l : List String) : (dedupFirst l).Nodup :=
  nodup_dedupFirstAux l []

/-- C5.  Every possible output of `generate_predictions` has at most 15
entries and no duplicate strings. -/
theorem generate_predictions_bounded (user_data : UserData) (month hour : Int)
    (out : List String) (h : GeneratesPredictions user_data month hour out) :
    out.length ≤ 15 ∧ out.Nodup := by
  obtain ⟨s, ⟨hnd, hmem⟩, rfl⟩ := h
  constructor
  · simp [List.length_take]
  · exact (List.take_sublist 15 s).nodup hnd

/-- C3 as amended.  Every possible output of `generate_predictions` is
duplicate-free, draws all its entries from the concatenated sub-model
outputs, and has length `min 15 (number of distinct predictions)`; when
there are at most 15 distinct predictions it contains exactly the distinct
predictions.  The order of the surviving entries is Python set-iteration
order, not first-seen order. -/
theorem generate_predictions_merge (user_data : UserData) (month hour : Int)
    (out : List String) (h : GeneratesPredictions user_data month hour out) :
    out.Nodup ∧
    (∀ x ∈ out, x ∈ allPredictions user_data month hour) ∧
    out.length = min 15 (dedupFirst (allPredictions user_data month hour)).length ∧
    ((dedupFirst (allPredictions user_data month hour)).length ≤ 15 →
      ∀ x, x ∈ out ↔ x ∈ allPredictions user_data month hour) := by
  obtain ⟨s, ⟨hnd, hmem⟩, rfl⟩ := h
  have hperm : s.Perm (dedupFirst (allPredictions user_data month hour)) :=
    (List.perm_ext_iff_of_nodup hnd (nodup_dedupFirst _)).mpr
      (fun x => by rw [hmem, mem_dedupFirst])
  refine ⟨(List.take_sublist 15 s).nodup hnd, ?_, ?_, ?_⟩
  · intro x hx
    exact (hmem x).mp ((List.take_sublist 15 s).subset hx)
  · rw [List.length_take, hperm.length_eq]
  · intro hle x
    have hs : s.length ≤ 15 := by rw [hperm.length_eq]; exact hle
    rw [List.take_of_length_le hs]
    exact hmem x

/-- A context exercising the predictive engine: weather Cloudy, one Dairy
purchase, no calendar events, no health goals, 6000 steps and 8 waters. -/
def ctxPred : UserData :=
  ⟨none, none, some "Cloudy", none, some [], none, some [],
   some ⟨some 6000, none, some 8⟩, some [⟨some "Dairy"⟩], none, none⟩

/-- The ten distinct predictions of `ctxPred` at month 0, hour 13, in
concatenation order. -/
def predListing : List String :=
  ["More Dairy items", "Social gathering items", "Career items",
   "Home improvement", "Travel", "Investment tools", "Skill development",
   "Lunch options", "Afternoon snacks", "Energy drinks"]

/-- Concrete evaluation of the six sub-models on `ctxPred`. -/
theorem allPredictions_ctxPred : allPredictions ctxPred 0 13 = predListing := by
  have hb : _behavioral_predictions ctxPred = ["More Dairy items"] := by
    unfold _behavioral_predictions ctxPred
    simp only [Option.getD_some]
    rw [if_neg (by decide), show tally [⟨some "Dairy"⟩] = [("Dairy", 1)] from rfl,
      List.mergeSort_singleton]
    rfl
  unfold allPredictions
  rw [hb]
  decide

/-- `predListing` is itself one valid set-enumeration output on `ctxPred`. -/
theorem ctxPred_generates : GeneratesPredictions ctxPred 0 13 predListing := by
  refine ⟨predListing, ⟨by decide, fun x => ?_⟩, by decide⟩
  rw [allPredictions_ctxPred]

/-- C3 counterexample.  On `ctxPred` the set-enumeration that lists
"Social gathering items" before "More Dairy items" is a possible value of
`generate_predictions`, and it differs from the first-seen-order dedup
truncation demanded by the claim. -/
theorem generate_predictions_order_refuted :
    GeneratesPredictions ctxPred 0 13
      ["Social gathering items", "More Dairy items", "Career items",
       "Home improvement", "Travel", "Investment tools", "Skill development",
       "Lunch options", "Afternoon snacks", "Energy drinks"] ∧
    ["Social gathering items", "More Dairy items", "Career items",
     "Home improvement", "Travel", "Investment tools", "Skill development",
     "Lunch options", "Afternoon snacks", "Energy drinks"] ≠
      (dedupFirst (allPredictions ctxPred 0 13)).take 15 := by
  constructor
  · refine ⟨["Social gathering items", "More Dairy items", "Career items",
      "Home improvement", "Travel", "Investment tools", "Skill development",
      "Lunch options", "Afternoon snacks", "Energy drinks"],
      ⟨by decide, fun x => ?_⟩, by decide⟩
    rw [allPredictions_ctxPred]
    simp only [predListing, List.mem_cons, List.not_mem_nil]
    tauto
  · rw [allPredictions_ctxPred]
    decide

/-- Witness for C3 (amended): a concrete output on `ctxPred` with its
length equation. -/
theorem generate_predictions_merge_witness :
    ∃ out, GeneratesPredictions ctxPred 0 13 out ∧ out.Nodup ∧
      out.length = min 15 (dedupFirst (allPredictions ctxPred 0 13)).length :=
  ⟨predListing, ctxPred_generates,
   (generate_predictions_merge ctxPred 0 13 predListing ctxPred_generates).1,
   (generate_predictions_merge ctxPred 0 13 predListing ctxPred_generates).2.2.1⟩

/-- Witness for C5: a concrete output on `ctxPred` is within bounds and
duplicate-free. -/
theorem generate_predictions_bounded_witness :
    ∃ out, GeneratesPredictions ctxPred 0 13 out ∧ out.length ≤ 15 ∧ out.Nodup :=
  ⟨predListing, ctxPred_generates,
   (generate_predictions_bounded ctxPred 0 13 predListing ctxPred_generates).1,
   (generate_predictions_bounded ctxPred 0 13 predListing ctxPred_generates).2⟩

/-- The keys of the tally after one dict update: unchanged on a repeat
category, extended at the end on a new one. -/
theorem bump_keys : ∀ (acc : List (String × Nat)) (c : String),
    (bump acc c).map Prod.fst =
      if c ∈ acc.map Prod.fst then acc.map Prod.fst else acc.map Prod.fst ++ [c] := by
  intro acc c
  induction acc with
  | nil => simp [bump]
  | cons kv rest ih =>
    obtain ⟨k, n⟩ := kv
    unfold bump
    by_cases h : k = c
    · subst h
      simp [List.mem_cons]
    · rw [if_neg h]
      simp only [List.map_cons, ih, List.mem_cons]
      by_cases hc : c ∈ rest.map Prod.fst
      · rw [if_pos hc, if_pos (Or.inr hc)]
      · rw [if_neg hc, if_neg (by rintro (rfl | hm) <;> [exact h rfl; exact hc hm])]
        simp

/-- `dedupFirstAux` depends on the accumulator only through membership. -/
theorem dedupFirstAux_congr : ∀ (l s₁ s₂ : List String),
    (∀ y, y ∈ s₁ ↔ y ∈ s₂) → dedupFirstAux s₁ l = dedupFirstAux s₂ l := by
  intro l
  induction l with
  | nil => intro s₁ s₂ h; rfl
  | cons x xs ih =>
    intro s₁ s₂ h
    unfold dedupFirstAux
    by_cases hx : x ∈ s₁
    · rw [if_pos hx, if_pos ((h x).mp hx)]
      exact ih s₁ s₂ h
    · rw [if_neg hx, if_neg (fun hc => hx ((h x).mpr hc))]
      refine congrArg _ (ih _ _ fun y => ?_)
      simp only [List.mem_cons, h y]

/-- Unfolding equation of `dedupFirstAux` on a nonempty list. -/
theorem dedupFirstAux_cons (seen : List String) (x : String) (xs : List String) :
    dedupFirstAux seen (x :: xs) =
      if x ∈ seen then dedupFirstAux seen xs else x :: dedupFirstAux (x :: seen) xs := rfl

/-- Folding dict updates over a category sequence lists the keys in
first-appearance order, appended after the accumulator's keys. -/
theorem foldl_bump_keys : ∀ (cats : List String) (acc : List (String × Nat)),
    (cats.foldl bump acc).map Prod.fst =
      acc.map Prod.fst ++ dedupFirstAux (acc.map Prod.fst) cats := by
  intro cats
  induction cats with
  | nil => intro acc; simp [dedupFirstAux]
  | cons c cs ih =>
    intro acc
    rw [List.foldl_cons, ih, bump_keys, dedupFirstAux_cons]
    by_cases h : c ∈ acc.map Prod.fst
    · rw [if_pos h, if_pos h]
    · rw [if_neg h, if_neg h,
        dedupFirstAux_congr cs (acc.map Prod.fst ++ [c]) (c :: acc.map Prod.fst)
          (fun y => by simp [List.mem_append, List.mem_cons, or_comm])]
      simp

/-- The tally fold factors through the category projection. -/
theorem tally_eq_foldl_map : ∀ (hist : List PurchaseItem) (acc : List (String × Nat)),
    hist.foldl (fun acc item => bump acc (item.category.getD "General")) acc =
      (hist.map (fun item => item.category.getD "General")).foldl bump acc := by
  intro hist
  induction hist with
  | nil => intro acc; rfl
  | cons it its ih => intro acc; simp only [List.foldl_cons, List.map_cons, ih]

/-- The tally of `_behavioral_predictions` lists the categories in the order
of their first appearance in the purchase history. -/
theorem tally_keys (purchase_history : List PurchaseItem) :
    (tally purchase_history).map Prod.fst =
      dedupFirst (purchase_history.map (fun item => item.category.getD "General")) := by
  unfold tally dedupFirst
  rw [tally_eq_foldl_map, foldl_bump_keys]
  rfl

/-- The descending-count comparison is transitive. -/
theorem byCountDesc_trans (a b c : String × Nat) :
    byCountDesc a b → byCountDesc b c → byCountDesc a c := by
  simp only [byCountDesc, decide_eq_true_eq]
  omega

/-- The descending-count comparison is total. -/
theorem byCountDesc_total (a b : String × Nat) :
    byCountDesc a b || byCountDesc b a := by
  simp only [byCountDesc]
  by_cases h : b.2 ≤ a.2
  · simp [h]
  · simp [le_of_not_le h]

/-- C9.  `_behavioral_predictions` returns the fixed 3-string fallback on an
empty history; otherwise it formats the first three entries of the stable
descending-count sort of the tally, whose keys are in first-appearance
order; the sort is a permutation of the tally, is sorted by descending
count, and keeps equal-count entries in tally (first-appearance) order. -/
theorem behavioral_top_categories (user_data : UserData) :
    (user_data.purchase_history.getD [] = [] →
      _behavioral_predictions user_data =
        ["Basic necessities", "Popular items", "Trending products"]) ∧
    (user_data.purchase_history.getD [] ≠ [] →
      _behavioral_predictions user_data =
        (((tally (user_data.purchase_history.getD [])).mergeSort byCountDesc).take 3).map
          (fun cat => "More " ++ cat.1 ++ " items")) ∧
    (tally (user_data.purchase_history.getD [])).map Prod.fst =
      dedupFirst ((user_data.purchase_history.getD []).map
        (fun item => item.category.getD "General")) ∧
    ((tally (user_data.purchase_history.getD [])).mergeSort byCountDesc).Perm
      (tally (user_data.purchase_history.getD [])) ∧
    ((tally (user_data.purchase_history.getD [])).mergeSort byCountDesc).Pairwise
      (fun a b => b.2 ≤ a.2) ∧
    (∀ a b : String × Nat, a.2 = b.2 →
      List.Sublist [a, b] (tally (user_data.purchase_history.getD [])) →
      List.Sublist [a, b]
        ((tally (user_data.purchase_history.getD [])).mergeSort byCountDesc)) := by
  refine ⟨?_, ?_, tally_keys _, List.mergeSort_perm _ _, ?_, ?_⟩
  · intro h
    unfold _behavioral_predictions
    rw [if_pos h]
  · intro h
    unfold _behavioral_predictions
    rw [if_neg h]
  · exact (List.sorted_mergeSort byCountDesc_trans byCountDesc_total _).imp
      (fun h => by simpa [byCountDesc] using h)
  · intro a b hab hsub
    exact List.pair_sublist_mergeSort byCountDesc_trans byCountDesc_total
      (by simp [byCountDesc, hab]) hsub

/-- A context whose purchase history is Dairy, Produce, Dairy. -/
def ctxBehavioral : UserData :=
  ⟨none, none, none, none, none, none, none, none,
   some [⟨some "Dairy"⟩, ⟨some "Produce"⟩, ⟨some "Dairy"⟩], none, none⟩

/-- Witness for C9: on the history Dairy, Produce, Dairy the sub-model
returns the Dairy suggestion (count 2) before the Produce one (count 1). -/
theorem behavioral_top_categories_witness :
    _behavioral_predictions ctxBehavioral = ["More Dairy items", "More Produce items"] := by
  have h := (behavioral_top_categories ctxBehavioral).2.1 (by decide)
  have hsort : (tally (ctxBehavioral.purchase_history.getD [])).mergeSort byCountDesc =
      [("Dairy", 2), ("Produce", 1)] := by
    rw [show tally (ctxBehavioral.purchase_history.getD []) =
      [("Dairy", 2), ("Produce", 1)] from rfl]
    exact List.mergeSort_of_sorted (by decide)
  rw [h, hsort]
  rfl
